import Mathlib

/-!
Verification of `src/Android/MorganaSchedualer/images/icon_resize.py`.

The script is embedded shallowly: the filesystem is an explicit state
(an association list of files plus a list of existing directories),
the imaging library calls (`Image.open`, `img.resize`, `img.save`) are
modelled as pure functions on an `Image` record that tracks pixel
dimensions, the encoding, and the provenance of the pixel content, and
the script itself is `run : FS → RunResult`, which also records the
console lines printed and a trace of the observable actions in order.
-/

set_option maxHeartbeats 2000000

namespace IconResize

/-- Resampling filters of the imaging library (`PIL.Image.Resampling`). -/
inductive Filter where
  | nearest
  | box
  | bilinear
  | hamming
  | bicubic
  | lanczos
deriving DecidableEq

/-- How the pixel content of an in-memory image was obtained: decoded from
a file, derived by a full-image resample, or derived by cropping to a
sub-region.  The script only ever resamples. -/
inductive Provenance where
  | sourceFile (path : String)
  | resampled (src : Provenance) (w h : Nat) (f : Filter)
  | cropRegion (src : Provenance) (left upper right lower : Nat)
deriving DecidableEq

/-- True when the pixel content was obtained through any cropping step. -/
def Provenance.usesCrop : Provenance → Bool
  | .sourceFile _ => false
  | .resampled src _ _ _ => src.usesCrop
  | .cropRegion _ _ _ _ _ => true

/-- An in-memory raster image: pixel dimensions, the encoding it was decoded
from (`none` for images created in memory — PIL leaves `format = None` on
derived images), and the provenance of its pixel content. -/
structure Image where
  width : Nat
  height : Nat
  format : Option String
  provenance : Provenance
deriving DecidableEq

/-- `img.resize(size, filter)`: full-image resample to exactly the target
size; the result carries no source encoding. -/
def Image.resize (img : Image) (w h : Nat) (f : Filter) : Image :=
  { width := w, height := h, format := none,
    provenance := .resampled img.provenance w h f }

/-- `img.crop(box)`: crop to a sub-region.  Present in the library, never
called by the script; it is here so that "not cropped" is expressible. -/
def Image.crop (img : Image) (left upper right lower : Nat) : Image :=
  { width := right - left, height := lower - upper, format := none,
    provenance := .cropRegion img.provenance left upper right lower }

/-- Suffix test on the underlying character list. -/
def strEndsWith (p suffixStr : String) : Bool :=
  suffixStr.data.isSuffixOf p.data

/-- PIL `Image.save(filename)` with no explicit format argument infers the
written encoding from the filename extension (a resized image has no
`format` of its own).  The script only ever writes `.png` names. -/
def formatFromExtension (p : String) : Option String :=
  if strEndsWith p ".png" then some "PNG" else none

/-- A file on disk: `some img` when it decodes as a raster image, `none`
for content `PIL.Image.open` would fail on. -/
abbrev FileContent := Option Image

/-- Filesystem state: files (path ↦ content, first entry wins) and the
existing directories.  Paths are the raw strings the script builds — no
normalization of `..`, and relative paths stay relative (they name entries
of the process working directory). -/
structure FS where
  files : List (String × FileContent)
  dirs : List String
deriving DecidableEq

/-- `os.path.exists`: true for an existing file or directory. -/
def FS.pathExists (fs : FS) (p : String) : Bool :=
  fs.files.any (fun e => e.1 == p) || fs.dirs.contains p

/-- `os.makedirs`: record the directory as existing (creation of
intermediate parents is not tracked; every claim concerns leaf paths). -/
def FS.makedirs (fs : FS) (p : String) : FS :=
  { fs with dirs := p :: fs.dirs }

/-- First file entry at `p`, if any. -/
def lookupFile : List (String × FileContent) → String → Option FileContent
  | [], _ => none
  | e :: t, p => if e.1 == p then some e.2 else lookupFile t p

/-- Read the file at `p`; `PIL.Image.open` succeeds exactly on
`some (some img)`. -/
def FS.readFile (fs : FS) (p : String) : Option FileContent :=
  lookupFile fs.files p

/-- `img.save(p)`: write (or overwrite) the file at `p`, encoded in the
format inferred from the extension of `p`. -/
def FS.save (fs : FS) (p : String) (img : Image) : FS :=
  { fs with
    files := (p, some { img with format := formatFromExtension p }) ::
      fs.files.filter (fun e => e.1 != p) }

/-- Observable actions of a run, in execution order. -/
inductive Event where
  | openImage (p : String)
  | mkdir (p : String)
  | resample (w h : Nat) (f : Filter)
  | saveFile (p : String)
  | closeImage
deriving DecidableEq

/-- Line 5: the hard-coded source path. -/
def original_image_path : String :=
  "/Users/elad/code/playground/Arduino/Android/MorganaSchedualer/images/logo.png"

/-- `os.path.dirname`: everything before the last slash. -/
def dirname (p : String) : String :=
  ⟨((p.data.reverse.dropWhile (fun c => c != '/')).drop 1).reverse⟩

/-- Line 6. -/
def main_dir : String := dirname original_image_path

/-- Lines 10–16: the size table, in insertion order (Python dicts preserve
insertion order). -/
def icon_sizes : List (String × Nat × Nat) :=
  [("mipmap-xxxhdpi", 192, 192),
   ("mipmap-xxhdpi", 144, 144),
   ("mipmap-xhdpi", 96, 96),
   ("mipmap-hdpi", 72, 72),
   ("mipmap-mdpi", 48, 48)]

/-- `os.path.join` for a relative right component. -/
def ospJoin (a b : String) : String := a ++ "/" ++ b

/-- Line 37: `os.path.join(main_dir, "../app/src/main/res", folder_name)`. -/
def icon_dir (folder_name : String) : String :=
  ospJoin (ospJoin main_dir "../app/src/main/res") folder_name

/-- Line 40: `os.path.join(icon_dir, 'ic_launcher.png')`. -/
def output_filename (folder_name : String) : String :=
  ospJoin (icon_dir folder_name) "ic_launcher.png"

/-- The five output file paths, in table order. -/
def output_paths : List String := icon_sizes.map (fun e => output_filename e.1)

/- The console lines.  The script prints Hebrew text; only the presence and
count of the lines matter to the claims, so the text is modelled in
English. -/

/-- Line 20. -/
def errMsg1 : String := "error: the file " ++ original_image_path ++ " was not found"

/-- Line 21. -/
def errMsg2 : String := "please save the logo in this folder as morgana_logo.png"

/-- Line 25. -/
def processingMsg : String := "processing the image: " ++ original_image_path

/-- Line 43. -/
def progressMsg (p : String) (w h : Nat) : String :=
  "created icon: " ++ p ++ " (size " ++ toString w ++ "x" ++ toString h ++ ")"

/-- Line 45. -/
def doneMsg : String := "finished successfully"

/-- In-flight state of a run: filesystem, printed lines, event trace. -/
structure St where
  fs : FS
  msgs : List String
  trace : List Event
deriving DecidableEq

/-- The `if not os.path.exists(d): os.makedirs(d)` pattern
(lines 30–31 and 38–39), returning the events it performs. -/
def ensureDir (fs : FS) (d : String) : FS × List Event :=
  if fs.pathExists d then (fs, []) else (fs.makedirs d, [Event.mkdir d])

/-- Lines 28–43: one iteration of the loop over `icon_sizes`.  Note line 30
operates on the bare `folder_name`, a path relative to the process working
directory, while lines 37–39 build the real output directory. -/
def processEntry (img : Image) (st : St) (e : String × Nat × Nat) : St :=
  let folder_name := e.1
  let w := e.2.1
  let h := e.2.2
  let r1 := ensureDir st.fs folder_name
  let resized_img := img.resize w h Filter.lanczos
  let r2 := ensureDir r1.1 (icon_dir folder_name)
  let fsOut := r2.1.save (output_filename folder_name) resized_img
  { fs := fsOut,
    msgs := st.msgs ++ [progressMsg (output_filename folder_name) w h],
    trace := st.trace ++ r1.2 ++ [Event.resample w h Filter.lanczos] ++ r2.2 ++
      [Event.saveFile (output_filename folder_name)] }

/-- Result of a run.  `crashed = true` models an unhandled exception
(`Image.open` failing on an existing path that is a directory or not a
decodable image); the missing-file branch is the handled one. -/
structure RunResult where
  fs : FS
  msgs : List String
  trace : List Event
  crashed : Bool
deriving DecidableEq

/-- Lines 19–45: the whole script, as a function of the initial
filesystem. -/
def run (fs : FS) : RunResult :=
  if fs.pathExists original_image_path = false then
    { fs := fs, msgs := [errMsg1, errMsg2], trace := [], crashed := false }
  else
    match fs.readFile original_image_path with
    | some (some img) =>
      let st0 : St := { fs := fs, msgs := [processingMsg],
                        trace := [Event.openImage original_image_path] }
      let st := icon_sizes.foldl (processEntry img) st0
      { fs := st.fs, msgs := st.msgs ++ [doneMsg],
        trace := st.trace ++ [Event.closeImage], crashed := false }
    | _ =>
      { fs := fs, msgs := [], trace := [Event.openImage original_image_path],
        crashed := true }

/-- Is the event a file save? -/
def Event.isSave : Event → Bool
  | .saveFile _ => true
  | _ => false

/-- Is the event an image open? -/
def Event.isOpen : Event → Bool
  | .openImage _ => true
  | _ => false

/-- The in-flight state right after `Image.open` succeeds (line 24–25). -/
def initSt (fs : FS) : St :=
  { fs := fs, msgs := [processingMsg],
    trace := [Event.openImage original_image_path] }

/-- The in-flight state after the whole loop, given the opened image. -/
def runSt (fs : FS) (img : Image) : St :=
  icon_sizes.foldl (processEntry img) (initSt fs)

/-- A square PNG source image at the configured path, for concrete runs. -/
def img0 : Image := ⟨512, 512, some "PNG", .sourceFile original_image_path⟩

/-- A filesystem holding only the source image. -/
def fs0 : FS := ⟨[(original_image_path, some img0)], []⟩

/-- A source file that is really a JPEG image (PIL detects the encoding
from the content, not from the file name). -/
def imgJpeg : Image := ⟨512, 512, some "JPEG", .sourceFile original_image_path⟩

/-- A filesystem whose source file is a JPEG. -/
def fsJpeg : FS := ⟨[(original_image_path, some imgJpeg)], []⟩

/-- A non-square source image. -/
def imgWide : Image := ⟨640, 480, some "PNG", .sourceFile original_image_path⟩

/-- A filesystem whose source image is non-square. -/
def fsWide : FS := ⟨[(original_image_path, some imgWide)], []⟩

/-- The empty filesystem: the source path does not exist. -/
def fsEmpty : FS := ⟨[], []⟩

/-- A filesystem where the source path exists but its content is not a
decodable image. -/
def fsRaw : FS := ⟨[(original_image_path, none)], []⟩

/-- A filesystem that already contains a stale file at one output path. -/
def fsPre : FS :=
  ⟨[(original_image_path, some img0),
    (output_filename "mipmap-xxxhdpi", some img0)], []⟩

/-! Helper lemmas about the embedding. -/

theorem lookupFile_any {l : List (String × FileContent)} {p : String}
    {v : FileContent} (h : lookupFile l p = some v) :
    l.any (fun e => e.1 == p) = true := by
  induction l with
  | nil => simp [lookupFile] at h
  | cons e t ih =>
    rw [lookupFile] at h
    rw [List.any_cons]
    cases hc : (e.1 == p) with
    | true => simp [hc]
    | false =>
      rw [hc] at h
      simp only [Bool.false_eq_true, if_false] at h
      simp only [Bool.false_or]
      exact ih h

theorem readFile_pathExists {fs : FS} {p : String} {v : FileContent}
    (h : fs.readFile p = some v) : fs.pathExists p = true := by
  unfold FS.pathExists
  rw [lookupFile_any h]
  rfl

theorem lookupFile_filter_ne (l : List (String × FileContent)) {p q : String}
    (hpq : p ≠ q) :
    lookupFile (l.filter (fun e => e.1 != q)) p = lookupFile l p := by
  induction l with
  | nil => rfl
  | cons e t ih =>
    rw [List.filter_cons]
    cases hq : (e.1 != q) with
    | true =>
      simp only [if_true]
      rw [lookupFile, lookupFile, ih]
    | false =>
      have he : e.1 = q := by simpa using hq
      have hep : (e.1 == p) = false := by
        simp [he]
        exact fun hqp => hpq hqp.symm
      simp only [Bool.false_eq_true, if_false]
      rw [ih, lookupFile, hep]
      simp

theorem save_readFile_ne (fs : FS) {p q : String} (img : Image) (hpq : p ≠ q) :
    (fs.save q img).readFile p = fs.readFile p := by
  unfold FS.save FS.readFile
  rw [lookupFile]
  have hqp : (q == p) = false := by
    simp
    exact fun h => hpq h.symm
  rw [hqp]
  simp only [Bool.false_eq_true, if_false]
  exact lookupFile_filter_ne fs.files hpq

theorem save_readFile_eq (fs : FS) (q : String) (img : Image) :
    (fs.save q img).readFile q =
      some (some { img with format := formatFromExtension q }) := by
  unfold FS.save FS.readFile
  rw [lookupFile]
  simp

theorem ensureDir_files (fs : FS) (d : String) :
    (ensureDir fs d).1.files = fs.files := by
  unfold ensureDir
  split <;> rfl

theorem ensureDir_readFile (fs : FS) (d p : String) :
    (ensureDir fs d).1.readFile p = fs.readFile p := by
  unfold FS.readFile
  rw [ensureDir_files]

theorem makedirs_pathExists_mono {fs : FS} {q : String} (d : String)
    (h : fs.pathExists q = true) : (fs.makedirs d).pathExists q = true := by
  simp only [FS.pathExists, FS.makedirs, List.contains_cons] at h ⊢
  rcases Bool.or_eq_true_iff.mp h with h1 | h2
  · rw [h1]
    rfl
  · rw [h2]
    simp

theorem ensureDir_pathExists (fs : FS) (d : String) :
    (ensureDir fs d).1.pathExists d = true := by
  unfold ensureDir
  split
  · next h => exact h
  · simp [FS.pathExists, FS.makedirs]

theorem ensureDir_pathExists_mono {fs : FS} {q : String} (d : String)
    (h : fs.pathExists q = true) : (ensureDir fs d).1.pathExists q = true := by
  unfold ensureDir
  split
  · exact h
  · exact makedirs_pathExists_mono d h

theorem ensureDir_events_isSave (fs : FS) (d : String) :
    (ensureDir fs d).2.filter Event.isSave = [] := by
  unfold ensureDir
  split <;> rfl

theorem ensureDir_events_isOpen (fs : FS) (d : String) :
    (ensureDir fs d).2.filter Event.isOpen = [] := by
  unfold ensureDir
  split <;> rfl

theorem processEntry_fs (img : Image) (st : St) (e : String × Nat × Nat) :
    (processEntry img st e).fs =
      FS.save (ensureDir (ensureDir st.fs e.1).1 (icon_dir e.1)).1
        (output_filename e.1) (img.resize e.2.1 e.2.2 Filter.lanczos) := rfl

theorem processEntry_trace (img : Image) (st : St) (e : String × Nat × Nat) :
    (processEntry img st e).trace =
      st.trace ++ (ensureDir st.fs e.1).2 ++
        [Event.resample e.2.1 e.2.2 Filter.lanczos] ++
        (ensureDir (ensureDir st.fs e.1).1 (icon_dir e.1)).2 ++
        [Event.saveFile (output_filename e.1)] := rfl

theorem processEntry_readFile_ne (img : Image) (st : St) (e : String × Nat × Nat)
    {p : String} (hp : p ≠ output_filename e.1) :
    (processEntry img st e).fs.readFile p = st.fs.readFile p := by
  rw [processEntry_fs, save_readFile_ne _ _ hp, ensureDir_readFile,
    ensureDir_readFile]

theorem processEntry_readFile_eq (img : Image) (st : St) (e : String × Nat × Nat) :
    (processEntry img st e).fs.readFile (output_filename e.1) =
      some (some { img.resize e.2.1 e.2.2 Filter.lanczos with
                   format := formatFromExtension (output_filename e.1) }) := by
  rw [processEntry_fs, save_readFile_eq]

theorem run_not_exists {fs : FS}
    (h : fs.pathExists original_image_path = false) :
    run fs = { fs := fs, msgs := [errMsg1, errMsg2], trace := [],
               crashed := false } := by
  unfold run
  rw [h]
  rfl

theorem run_crash {fs : FS} (hex : fs.pathExists original_image_path = true)
    (h : fs.readFile original_image_path = none ∨
      fs.readFile original_image_path = some none) :
    run fs = { fs := fs, msgs := [],
               trace := [Event.openImage original_image_path],
               crashed := true } := by
  unfold run
  rw [hex]
  simp only [Bool.true_eq_false, if_false]
  rcases h with h | h <;> rw [h]

theorem run_success {fs : FS} {img : Image}
    (hopen : fs.readFile original_image_path = some (some img)) :
    run fs =
      { fs := (runSt fs img).fs,
        msgs := (runSt fs img).msgs ++ [doneMsg],
        trace := (runSt fs img).trace ++ [Event.closeImage],
        crashed := false } := by
  have hex : fs.pathExists original_image_path = true := readFile_pathExists hopen
  unfold run
  rw [hex]
  simp only [Bool.true_eq_false, if_false]
  rw [hopen]
  rfl

theorem runSt_readFile {fs : FS} (img : Image) {p : String}
    (hp : p ∉ output_paths) :
    (runSt fs img).fs.readFile p = fs.readFile p := by
  simp only [output_paths, icon_sizes, List.map_cons, List.map_nil,
    List.mem_cons, List.not_mem_nil, or_false, not_or] at hp
  obtain ⟨h1, h2, h3, h4, h5⟩ := hp
  unfold runSt
  simp only [icon_sizes, List.foldl_cons, List.foldl_nil]
  rw [processEntry_readFile_ne img _ ("mipmap-mdpi", 48, 48) h5,
    processEntry_readFile_ne img _ ("mipmap-hdpi", 72, 72) h4,
    processEntry_readFile_ne img _ ("mipmap-xhdpi", 96, 96) h3,
    processEntry_readFile_ne img _ ("mipmap-xxhdpi", 144, 144) h2,
    processEntry_readFile_ne img _ ("mipmap-xxxhdpi", 192, 192) h1]
  rfl

theorem run_readFile_frame (fs : FS) {p : String} (hp : p ∉ output_paths) :
    (run fs).fs.readFile p = fs.readFile p := by
  cases hex : fs.pathExists original_image_path with
  | false => rw [run_not_exists hex]
  | true =>
    cases hread : fs.readFile original_image_path with
    | none => rw [run_crash hex (Or.inl hread)]
    | some c =>
      cases c with
      | none => rw [run_crash hex (Or.inr hread)]
      | some img =>
        rw [run_success hread]
        exact runSt_readFile img hp

theorem run_readFile_output {fs : FS} {img : Image}
    (hopen : fs.readFile original_image_path = some (some img))
    (e : String × Nat × Nat) (he : e ∈ icon_sizes) :
    (run fs).fs.readFile (output_filename e.1) =
      some (some { width := e.2.1, height := e.2.2, format := some "PNG",
                   provenance := .resampled img.provenance e.2.1 e.2.2
                     Filter.lanczos }) := by
  rw [run_success hopen]
  simp only [icon_sizes, List.mem_cons, List.not_mem_nil, or_false] at he
  simp only [runSt, icon_sizes, List.foldl_cons, List.foldl_nil]
  rcases he with rfl | rfl | rfl | rfl | rfl
  · rw [processEntry_readFile_ne img _ ("mipmap-mdpi", 48, 48) (by decide),
      processEntry_readFile_ne img _ ("mipmap-hdpi", 72, 72) (by decide),
      processEntry_readFile_ne img _ ("mipmap-xhdpi", 96, 96) (by decide),
      processEntry_readFile_ne img _ ("mipmap-xxhdpi", 144, 144) (by decide),
      processEntry_readFile_eq]
    rfl
  · rw [processEntry_readFile_ne img _ ("mipmap-mdpi", 48, 48) (by decide),
      processEntry_readFile_ne img _ ("mipmap-hdpi", 72, 72) (by decide),
      processEntry_readFile_ne img _ ("mipmap-xhdpi", 96, 96) (by decide),
      processEntry_readFile_eq]
    rfl
  · rw [processEntry_readFile_ne img _ ("mipmap-mdpi", 48, 48) (by decide),
      processEntry_readFile_ne img _ ("mipmap-hdpi", 72, 72) (by decide),
      processEntry_readFile_eq]
    rfl
  · rw [processEntry_readFile_ne img _ ("mipmap-mdpi", 48, 48) (by decide),
      processEntry_readFile_eq]
    rfl
  · rw [processEntry_readFile_eq]
    rfl

theorem run_trace {fs : FS} {img : Image}
    (hopen : fs.readFile original_image_path = some (some img)) :
    (run fs).trace = (runSt fs img).trace ++ [Event.closeImage] := by
  rw [run_success hopen]

/-! The claims. -/

/-- C1: if the configured source image path does not exist, the routine
prints a diagnostic message and terminates cleanly — the filesystem is
unchanged (no output file written) and no exception is raised; and this is
the only handled error branch: an existing source path whose content
`Image.open` cannot decode terminates the run with an unhandled
exception. -/
theorem C1_missing_source_clean (fs fs₁ : FS)
    (h : fs.pathExists original_image_path = false)
    (hex₁ : fs₁.pathExists original_image_path = true)
    (hbad : fs₁.readFile original_image_path = some none) :
    (run fs).fs = fs ∧ (run fs).msgs = [errMsg1, errMsg2] ∧
      (run fs).crashed = false ∧ (run fs₁).crashed = true := by
  rw [run_not_exists h, run_crash hex₁ (Or.inr hbad)]
  exact ⟨rfl, rfl, rfl, rfl⟩

/-- Witness for C1 at concrete filesystems. -/
theorem C1_missing_source_clean_witness :
    (run fsEmpty).fs = fsEmpty ∧ (run fsEmpty).msgs = [errMsg1, errMsg2] ∧
      (run fsEmpty).crashed = false ∧ (run fsRaw).crashed = true :=
  C1_missing_source_clean fsEmpty fsRaw (by decide) (by decide) (by decide)

/-- C2: when the source opens, the run succeeds and produces exactly the
five output files of the size table: each output path holds a file of
exactly the configured dimensions, is named `ic_launcher.png`, sits under a
directory named by its label, the five paths are distinct, and no file
outside them changes. -/
theorem C2_five_outputs {fs : FS} {img : Image}
    (hopen : fs.readFile original_image_path = some (some img)) :
    (run fs).crashed = false ∧
    icon_sizes.length = 5 ∧
    output_paths.Nodup ∧
    (∀ e ∈ icon_sizes,
      (run fs).fs.readFile (output_filename e.1) =
        some (some { width := e.2.1, height := e.2.2, format := some "PNG",
                     provenance := .resampled img.provenance e.2.1 e.2.2
                       Filter.lanczos }) ∧
      output_filename e.1 = ospJoin (icon_dir e.1) "ic_launcher.png" ∧
      strEndsWith (output_filename e.1) "/ic_launcher.png" = true ∧
      strEndsWith (icon_dir e.1) ("/" ++ e.1) = true) ∧
    (∀ p, p ∉ output_paths → (run fs).fs.readFile p = fs.readFile p) := by
  refine ⟨?_, rfl, by decide, ?_, fun p hp => run_readFile_frame fs hp⟩
  · rw [run_success hopen]
  · intro e he
    refine ⟨run_readFile_output hopen e he, rfl, ?_, ?_⟩
    · simp only [icon_sizes, List.mem_cons, List.not_mem_nil, or_false] at he
      rcases he with rfl | rfl | rfl | rfl | rfl <;> decide
    · simp only [icon_sizes, List.mem_cons, List.not_mem_nil, or_false] at he
      rcases he with rfl | rfl | rfl | rfl | rfl <;> decide

/-- Witness for C2 at a concrete filesystem. -/
theorem C2_five_outputs_witness :
    fs0.readFile original_image_path = some (some img0) ∧
    ((run fs0).crashed = false ∧
     icon_sizes.length = 5 ∧
     output_paths.Nodup ∧
     (∀ e ∈ icon_sizes,
       (run fs0).fs.readFile (output_filename e.1) =
         some (some { width := e.2.1, height := e.2.2, format := some "PNG",
                      provenance := .resampled img0.provenance e.2.1 e.2.2
                        Filter.lanczos }) ∧
       output_filename e.1 = ospJoin (icon_dir e.1) "ic_launcher.png" ∧
       strEndsWith (output_filename e.1) "/ic_launcher.png" = true ∧
       strEndsWith (icon_dir e.1) ("/" ++ e.1) = true) ∧
     (∀ p, p ∉ output_paths → (run fs0).fs.readFile p = fs0.readFile p)) :=
  ⟨by decide, C2_five_outputs (by decide)⟩

/-- C3: each output file is written exactly at
`<base>/../app/src/main/res/<label>/ic_launcher.png`, where `<base>` is the
directory containing the source image, and an existing file at that path is
overwritten by the freshly resized image. -/
theorem C3_output_path_overwrite {fs : FS} {img : Image} (old : FileContent)
    (hopen : fs.readFile original_image_path = some (some img))
    (e : String × Nat × Nat) (he : e ∈ icon_sizes)
    (hold : fs.readFile (output_filename e.1) = some old) :
    output_filename e.1 =
      dirname original_image_path ++ "/../app/src/main/res/" ++ e.1 ++
        "/ic_launcher.png" ∧
    (run fs).fs.readFile (output_filename e.1) =
      some (some { width := e.2.1, height := e.2.2, format := some "PNG",
                   provenance := .resampled img.provenance e.2.1 e.2.2
                     Filter.lanczos }) := by
  refine ⟨?_, run_readFile_output hopen e he⟩
  simp only [icon_sizes, List.mem_cons, List.not_mem_nil, or_false] at he
  rcases he with rfl | rfl | rfl | rfl | rfl <;> decide

/-- Witness for C3: a stale file already sits at the xxxhdpi output path. -/
theorem C3_output_path_overwrite_witness :
    fsPre.readFile original_image_path = some (some img0) ∧
    ("mipmap-xxxhdpi", (192 : Nat), (192 : Nat)) ∈ icon_sizes ∧
    fsPre.readFile (output_filename "mipmap-xxxhdpi") = some (some img0) ∧
    (output_filename "mipmap-xxxhdpi" =
      dirname original_image_path ++ "/../app/src/main/res/" ++
        "mipmap-xxxhdpi" ++ "/ic_launcher.png" ∧
     (run fsPre).fs.readFile (output_filename "mipmap-xxxhdpi") =
       some (some { width := 192, height := 192, format := some "PNG",
                    provenance := .resampled img0.provenance 192 192
                      Filter.lanczos })) :=
  ⟨by decide, by decide, by decide,
    C3_output_path_overwrite (some img0) (by decide)
      ("mipmap-xxxhdpi", 192, 192) (by decide) (by decide)⟩

/-- C4: every output image is produced by resampling the full source image
to exactly the configured target size with the LANCZOS filter — a
high-quality filter distinct from nearest-neighbor. -/
theorem C4_lanczos_resample {fs : FS} {img : Image}
    (hopen : fs.readFile original_image_path = some (some img))
    (e : String × Nat × Nat) (he : e ∈ icon_sizes) :
    ∃ stored : Image,
      (run fs).fs.readFile (output_filename e.1) = some (some stored) ∧
      stored.width = e.2.1 ∧ stored.height = e.2.2 ∧
      stored.provenance = .resampled img.provenance e.2.1 e.2.2 Filter.lanczos ∧
      Filter.lanczos ≠ Filter.nearest :=
  ⟨_, run_readFile_output hopen e he, rfl, rfl, rfl, by decide⟩

/-- Witness for C4 at a concrete filesystem and table entry. -/
theorem C4_lanczos_resample_witness :
    fs0.readFile original_image_path = some (some img0) ∧
    ("mipmap-hdpi", (72 : Nat), (72 : Nat)) ∈ icon_sizes ∧
    (∃ stored : Image,
      (run fs0).fs.readFile (output_filename ("mipmap-hdpi", 72, 72).1) =
        some (some stored) ∧
      stored.width = ("mipmap-hdpi", (72 : Nat), (72 : Nat)).2.1 ∧
      stored.height = ("mipmap-hdpi", (72 : Nat), (72 : Nat)).2.2 ∧
      stored.provenance = .resampled img0.provenance 72 72 Filter.lanczos ∧
      Filter.lanczos ≠ Filter.nearest) :=
  ⟨by decide, by decide,
    C4_lanczos_resample (by decide) ("mipmap-hdpi", 72, 72) (by decide)⟩

/-- C5: the destination directory is ensured to exist (created when absent)
before the file is saved — `ensureDir` establishes existence, and the state
passed to `FS.save` is exactly the one after both `ensureDir` steps — and
the run is idempotent at the output level: rerunning on the resulting
filesystem rewrites the same five files with identical content and hence
identical pixel dimensions. -/
theorem C5_mkdir_before_save_idempotent {fs : FS} {img : Image}
    (hopen : fs.readFile original_image_path = some (some img)) :
    (∀ fs₁ : FS, ∀ d : String, (ensureDir fs₁ d).1.pathExists d = true) ∧
    (∀ st : St, ∀ e : String × Nat × Nat,
      (processEntry img st e).fs =
        FS.save (ensureDir (ensureDir st.fs e.1).1 (icon_dir e.1)).1
          (output_filename e.1) (img.resize e.2.1 e.2.2 Filter.lanczos) ∧
      (ensureDir (ensureDir st.fs e.1).1 (icon_dir e.1)).1.pathExists
        (icon_dir e.1) = true) ∧
    (∀ e ∈ icon_sizes,
      (run (run fs).fs).fs.readFile (output_filename e.1) =
        (run fs).fs.readFile (output_filename e.1)) := by
  refine ⟨fun fs₁ d => ensureDir_pathExists fs₁ d,
    fun st e => ⟨processEntry_fs img st e, ensureDir_pathExists _ _⟩, ?_⟩
  intro e he
  have hopen₂ : (run fs).fs.readFile original_image_path = some (some img) := by
    rw [run_readFile_frame fs (by decide), hopen]
  rw [run_readFile_output hopen₂ e he, run_readFile_output hopen e he]

/-- Witness for C5 at a concrete filesystem. -/
theorem C5_mkdir_before_save_idempotent_witness :
    fs0.readFile original_image_path = some (some img0) ∧
    ((∀ fs₁ : FS, ∀ d : String, (ensureDir fs₁ d).1.pathExists d = true) ∧
     (∀ st : St, ∀ e : String × Nat × Nat,
       (processEntry img0 st e).fs =
         FS.save (ensureDir (ensureDir st.fs e.1).1 (icon_dir e.1)).1
           (output_filename e.1) (img0.resize e.2.1 e.2.2 Filter.lanczos) ∧
       (ensureDir (ensureDir st.fs e.1).1 (icon_dir e.1)).1.pathExists
         (icon_dir e.1) = true) ∧
     (∀ e ∈ icon_sizes,
       (run (run fs0).fs).fs.readFile (output_filename e.1) =
         (run fs0).fs.readFile (output_filename e.1))) :=
  ⟨by decide, C5_mkdir_before_save_idempotent (by decide)⟩

/-- C6 (code-bug evidence): on a filesystem holding only the source image,
the run persists state outside the five output locations — line 31
(`os.makedirs(folder_name)`) creates a directory named after each bare
size-table label, a path relative to the process working directory that is
neither an output file path nor an output directory, and that no later step
uses. -/
theorem C6_stray_relative_dirs :
    fs0.dirs = [] ∧
    "mipmap-xxxhdpi" ∈ (run fs0).fs.dirs ∧
    "mipmap-xxxhdpi" ∉ output_paths ∧
    (∀ e ∈ icon_sizes, "mipmap-xxxhdpi" ≠ icon_dir e.1) ∧
    (∀ e ∈ icon_sizes, e.1 ∈ (run fs0).fs.dirs) := by
  decide

/-- C7: a non-square source image is stretched, not cropped: each output
has exactly the square target dimensions, its content is a resample of the
full source image, and no cropping step is introduced anywhere. -/
theorem C7_stretch_not_crop {fs : FS} {img : Image}
    (hopen : fs.readFile original_image_path = some (some img))
    (_hns : img.width ≠ img.height)
    (e : String × Nat × Nat) (he : e ∈ icon_sizes) :
    ∃ stored : Image,
      (run fs).fs.readFile (output_filename e.1) = some (some stored) ∧
      stored.width = e.2.1 ∧ stored.height = e.2.2 ∧ e.2.1 = e.2.2 ∧
      stored.provenance = .resampled img.provenance e.2.1 e.2.2 Filter.lanczos ∧
      stored.provenance.usesCrop = img.provenance.usesCrop := by
  refine ⟨_, run_readFile_output hopen e he, rfl, rfl, ?_, rfl, rfl⟩
  simp only [icon_sizes, List.mem_cons, List.not_mem_nil, or_false] at he
  rcases he with rfl | rfl | rfl | rfl | rfl <;> rfl

/-- Witness for C7: a 640×480 source image. -/
theorem C7_stretch_not_crop_witness :
    fsWide.readFile original_image_path = some (some imgWide) ∧
    imgWide.width ≠ imgWide.height ∧
    ("mipmap-mdpi", (48 : Nat), (48 : Nat)) ∈ icon_sizes ∧
    (∃ stored : Image,
      (run fsWide).fs.readFile (output_filename ("mipmap-mdpi", 48, 48).1) =
        some (some stored) ∧
      stored.width = 48 ∧ stored.height = 48 ∧ (48 : Nat) = 48 ∧
      stored.provenance = .resampled imgWide.provenance 48 48 Filter.lanczos ∧
      stored.provenance.usesCrop = imgWide.provenance.usesCrop) :=
  ⟨by decide, by decide, by decide,
    C7_stretch_not_crop (by decide) (by decide) ("mipmap-mdpi", 48, 48)
      (by decide)⟩

/-- C8 (counterexample): with a JPEG source image, the output is written as
PNG — `img.save` infers the encoding from the `.png` output filename — so
the written encoding differs from the source encoding, refuting "the
written file's encoding equals the source's encoding for every source
format". -/
theorem C8_counterexample_jpeg_source :
    imgJpeg.format = some "JPEG" ∧
    (run fsJpeg).fs.readFile (output_filename "mipmap-xxxhdpi") =
      some (some { width := 192, height := 192, format := some "PNG",
                   provenance := .resampled imgJpeg.provenance 192 192
                     Filter.lanczos }) ∧
    (some "PNG" : Option String) ≠ some "JPEG" := by
  decide

/-- C8 (amended): each output file is a raster image encoded as PNG — the
encoding is inferred from the `.png` extension of the output filename,
independently of the source encoding — and it equals the source's encoding
exactly when the source is itself a PNG. -/
theorem C8_amended_outputs_png {fs : FS} {img : Image}
    (hopen : fs.readFile original_image_path = some (some img))
    (e : String × Nat × Nat) (he : e ∈ icon_sizes) :
    ∃ stored : Image,
      (run fs).fs.readFile (output_filename e.1) = some (some stored) ∧
      stored.format = some "PNG" ∧
      (stored.format = img.format ↔ img.format = some "PNG") :=
  ⟨_, run_readFile_output hopen e he, rfl, eq_comm⟩

/-- Witness for C8 (amended) at a concrete filesystem and entry. -/
theorem C8_amended_outputs_png_witness :
    fsJpeg.readFile original_image_path = some (some imgJpeg) ∧
    ("mipmap-mdpi", (48 : Nat), (48 : Nat)) ∈ icon_sizes ∧
    (∃ stored : Image,
      (run fsJpeg).fs.readFile (output_filename ("mipmap-mdpi", 48, 48).1) =
        some (some stored) ∧
      stored.format = some "PNG" ∧
      (stored.format = imgJpeg.format ↔ imgJpeg.format = some "PNG")) :=
  ⟨by decide, by decide,
    C8_amended_outputs_png (by decide) ("mipmap-mdpi", 48, 48) (by decide)⟩

/-- C9: in a successful run the source image is opened exactly once, as the
very first action; the five saves happen sequentially in size-table order;
and the image handle is closed as the last action of the run. -/
theorem C9_trace_order (fs : FS) (img : Image)
    (hopen : fs.readFile original_image_path = some (some img)) :
    (run fs).trace.filter Event.isOpen = [Event.openImage original_image_path] ∧
    (run fs).trace.head? = some (Event.openImage original_image_path) ∧
    (run fs).trace.filter Event.isSave = output_paths.map Event.saveFile ∧
    (run fs).trace.getLast? = some Event.closeImage := by
  rw [run_trace hopen]
  simp only [runSt, icon_sizes, List.foldl_cons, List.foldl_nil]
  rw [processEntry_trace, processEntry_trace, processEntry_trace,
    processEntry_trace, processEntry_trace]
  refine ⟨?_, ?_, ?_, ?_⟩
  · simp [List.filter_append, ensureDir_events_isOpen, initSt, Event.isOpen]
  · simp [initSt]
  · simp [List.filter_append, ensureDir_events_isSave, initSt, Event.isSave,
      output_paths, icon_sizes]
  · rw [List.getLast?_concat]

/-- Witness for C9 at a concrete filesystem. -/
theorem C9_trace_order_witness :
    fs0.readFile original_image_path = some (some img0) ∧
    ((run fs0).trace.filter Event.isOpen =
       [Event.openImage original_image_path] ∧
     (run fs0).trace.head? = some (Event.openImage original_image_path) ∧
     (run fs0).trace.filter Event.isSave = output_paths.map Event.saveFile ∧
     (run fs0).trace.getLast? = some Event.closeImage) :=
  ⟨by decide, C9_trace_order fs0 img0 (by decide)⟩

/-- C10: a run never modifies, truncates or deletes any file outside the
five output paths; in particular the source image file itself is only read,
never written. -/
theorem C10_no_other_file_touched (fs : FS) (p : String)
    (hp : p ∉ output_paths) :
    (run fs).fs.readFile p = fs.readFile p ∧
      (run fs).fs.readFile original_image_path =
        fs.readFile original_image_path :=
  ⟨run_readFile_frame fs hp, run_readFile_frame fs (by decide)⟩

/-- Witness for C10 at a concrete filesystem and path. -/
theorem C10_no_other_file_touched_witness :
    "unrelated.txt" ∉ output_paths ∧
    ((run fs0).fs.readFile "unrelated.txt" = fs0.readFile "unrelated.txt" ∧
     (run fs0).fs.readFile original_image_path =
       fs0.readFile original_image_path) :=
  ⟨by decide, C10_no_other_file_touched fs0 "unrelated.txt" (by decide)⟩

end IconResize
